import Mathlib

/-!
Verification of the version-comparison and release-eligibility core of the
GitHub version notifier (github_version_notifier.py).

The Python source is shallowly embedded: pure functions become Lean
functions over lists of characters and integers; the I/O collaborators
(the cadence file, the HTTP fetch, the skip-list file) are passed in as
explicit values describing what the collaborator produced, so that every
exit path of the Python code is a constructor of an explicit outcome type.
Strings are handled as their character lists so that every definition
reduces inside the kernel.
-/

namespace VersionNotifier

/-! ## Model of Python `int(s)` on decimal strings

`int(s)` strips surrounding whitespace, accepts one optional sign, then a
nonempty digit sequence in which single underscores may appear between
digits.  Anything else raises ValueError, modelled as `none`.
(Non-ASCII digits and exotic Unicode whitespace are not modelled.) -/

def pyIsSpace (c : Char) : Bool :=
  c = ' ' || c = '\t' || c = '\n' || c = '\r' || c = '\x0b' || c = '\x0c'

def digitVal (c : Char) : Nat := c.toNat - 48

/-- Consume the remaining characters of a digit sequence, allowing a single
underscore only between two digits, accumulating the value. -/
def digitsLoop (acc : Nat) : List Char → Option Nat
  | [] => some acc
  | '_' :: c :: rest =>
    if c.isDigit then digitsLoop (acc * 10 + digitVal c) rest else none
  | c :: rest =>
    if c.isDigit then digitsLoop (acc * 10 + digitVal c) rest else none

/-- A digit sequence must start with a digit (no leading underscore). -/
def digitsStart : List Char → Option Nat
  | [] => none
  | c :: rest => if c.isDigit then digitsLoop (digitVal c) rest else none

/-- Model of Python `int(s)` on a character list: strip whitespace,
optional sign, digits. -/
def pyIntChars (s : List Char) : Option Int :=
  let cs := ((s.dropWhile pyIsSpace).reverse.dropWhile pyIsSpace).reverse
  match cs with
  | '+' :: rest => (digitsStart rest).map Int.ofNat
  | '-' :: rest => (digitsStart rest).map fun n => -(n : Int)
  | rest => (digitsStart rest).map Int.ofNat

/-! ## Model of Python string primitives used by `_compare_versions` -/

/-- Model of Python `v.split('.')`: splitting keeps empty segments and an
empty string yields one empty segment. -/
def splitOnDot : List Char → List (List Char)
  | [] => [[]]
  | c :: rest =>
    if c = '.' then [] :: splitOnDot rest
    else
      match splitOnDot rest with
      | s :: ss => (c :: s) :: ss
      | [] => [[c]]

/-- Model of Python `<` on strings: lexicographic comparison of code
points, a proper prefix being smaller. -/
def charListLt : List Char → List Char → Bool
  | [], [] => false
  | [], _ :: _ => true
  | _ :: _, [] => false
  | a :: as, b :: bs =>
    if a.toNat < b.toNat then true
    else if b.toNat < a.toNat then false
    else charListLt as bs

/-! ## _compare_versions (github_version_notifier.py lines 153-175) -/

/-- `version_tuple(v) = tuple(map(int, v.split('.')))`; `none` when any
segment fails integer parsing (the ValueError path). -/
def version_tuple (v : String) : Option (List Int) :=
  (splitOnDot v.toList).mapM pyIntChars

/-- Python tuple comparison on integer tuples: lexicographic, a proper
prefix compares less than the longer tuple. -/
def listCompare : List Int → List Int → Ordering
  | [], [] => .eq
  | [], _ :: _ => .lt
  | _ :: _, [] => .gt
  | a :: as, b :: bs =>
    if a < b then .lt else if b < a then .gt else listCompare as bs

/-- The fallback branch of `_compare_versions`: ordinal (code-point
lexicographic) comparison of the raw strings. -/
def stringCompare (version1 version2 : String) : Int :=
  if charListLt version1.toList version2.toList then -1
  else if charListLt version2.toList version1.toList then 1
  else 0

/-- Embedding of `_compare_versions`: try to parse both strings as integer
tuples and compare them; on any ValueError fall back to string comparison.
Returns -1 (LESS), 0 (EQUAL) or 1 (GREATER). -/
def _compare_versions (version1 version2 : String) : Int :=
  match version_tuple version1, version_tuple version2 with
  | some v1, some v2 =>
    match listCompare v1 v2 with
    | .lt => -1
    | .gt => 1
    | .eq => 0
  | _, _ => stringCompare version1 version2

/-! ## Data model (github_version_notifier.py lines 32-54) -/

/-- Embedding of the `ReleaseInfo` dataclass. -/
structure ReleaseInfo where
  version : String
  tag_name : String
  name : String
  body : String
  published_at : String
  download_url : String
  is_prerelease : Bool
  is_draft : Bool
deriving DecidableEq

/-- Embedding of the `NotificationSettings` dataclass with its defaults. -/
structure NotificationSettings where
  check_interval_hours : Int := 24
  notify_on_prerelease : Bool := false
  notify_on_draft : Bool := false
  auto_download : Bool := false
  show_changelog : Bool := true
  github_token : Option String := none
  repository_owner : String := ""
  repository_name : String := ""
deriving DecidableEq

/-! ## check_for_updates (github_version_notifier.py lines 177-216)

The method's exit paths, in source order:
- line 183: owner or name empty (falsy) -> return None after emitting
  "Repository configuration missing" (the configuration-error channel);
- line 187: `_should_check_for_updates()` false -> return None;
- line 196: `if not releases_data` (request failed and returned None, or
  the API returned an empty list) -> return None, timestamp NOT updated;
- line 212: a scanned release passes the prerelease/draft filter and
  `_compare_versions(current, release.version) < 0` -> timestamp updated,
  release returned;
- line 216: the loop finishes -> timestamp updated, None returned.
Each path is a constructor below; the fetch collaborator is passed in as
`Option (List ReleaseInfo)` (`none` = the request raised). -/

inductive CheckOutcome where
  | configError
  | tooSoon
  | noData
  | noUpdate
  | updateAvailable (release : ReleaseInfo)
deriving DecidableEq

/-- The prerelease/draft eligibility test of the loop body
(lines 203-206): `true` when the release is NOT skipped by the two
`continue` statements. -/
def passesFilter (s : NotificationSettings) (r : ReleaseInfo) : Bool :=
  !(r.is_prerelease && !s.notify_on_prerelease) &&
    !(r.is_draft && !s.notify_on_draft)

/-- The `for release_data in releases_data` loop (lines 199-216): skip
filtered releases, return the first remaining release strictly newer than
the current version, keep scanning otherwise, `noUpdate` when the loop
finishes. -/
def scanReleases (s : NotificationSettings) (cur : String) :
    List ReleaseInfo → CheckOutcome
  | [] => .noUpdate
  | r :: rest =>
    if r.is_prerelease && !s.notify_on_prerelease then scanReleases s cur rest
    else if r.is_draft && !s.notify_on_draft then scanReleases s cur rest
    else if _compare_versions cur r.version < 0 then .updateAvailable r
    else scanReleases s cur rest

/-- Embedding of `check_for_updates`.  `shouldCheck` is the value of
`_should_check_for_updates()`; `fetched` is what `_make_github_request`
returned (`none` = request failure). -/
def check_for_updates (s : NotificationSettings) (cur : String)
    (shouldCheck : Bool) (fetched : Option (List ReleaseInfo)) :
    CheckOutcome :=
  if s.repository_owner = "" ∨ s.repository_name = "" then .configError
  else if !shouldCheck then .tooSoon
  else
    match fetched with
    | none => .noData
    | some [] => .noData
    | some rs => scanReleases s cur rs

/-- `_update_last_check_time` is called exactly on the two paths at
lines 211 and 215, i.e. exactly when the scan ran to a decision. -/
def timestampUpdated : CheckOutcome → Bool
  | .noUpdate => true
  | .updateAvailable _ => true
  | _ => false

/-! ## _handle_new_version (github_version_notifier.py lines 391-418)

When a release is found, the notifier consults the persisted skip list
and suppresses the notification dialog when the release's version is in
it; `skipped` is the list loaded from skipped_versions.json. -/

inductive Decision where
  | noNotification
  | notify (release : ReleaseInfo)
deriving DecidableEq

def _handle_new_version (skipped : List String) (r : ReleaseInfo) :
    Decision :=
  if r.version ∈ skipped then .noNotification else .notify r

/-- The end-to-end evaluation pipeline: run the check, then hand any found
release to `_handle_new_version`. -/
def evaluateAndNotify (s : NotificationSettings) (cur : String)
    (shouldCheck : Bool) (fetched : Option (List ReleaseInfo))
    (skipped : List String) : Decision :=
  match check_for_updates s cur shouldCheck fetched with
  | .updateAvailable r => _handle_new_version skipped r
  | _ => .noNotification

/-! ## _should_check_for_updates (github_version_notifier.py lines 93-106)

Time is modelled in Unix seconds; `timedelta(hours=h)` is `h * 3600`
seconds.  Reading last_version_check.json can: find no file; raise while
opening or JSON-decoding (the `except` arm returns True); or produce a
record whose 'last_check' field is absent (then the default string
'2000-01-01' is parsed), present but rejected by
`datetime.fromisoformat` (again the `except` arm), or present and parsed
to an instant. -/

/-- `datetime.fromisoformat('2000-01-01')` as Unix seconds. -/
def t2000 : Int := 946684800

inductive TimestampField where
  | absent
  | malformed
  | value (t : Int)
deriving DecidableEq

inductive LastCheckFile where
  | missing
  | unreadable
  | record (lastCheck : TimestampField)
deriving DecidableEq

def _should_check_for_updates (now : Int) (intervalHours : Int)
    (file : LastCheckFile) : Bool :=
  match file with
  | .missing => true
  | .unreadable => true
  | .record .absent => decide (now - t2000 > intervalHours * 3600)
  | .record .malformed => true
  | .record (.value t) => decide (now - t > intervalHours * 3600)

/-! ## skip_version (github_version_notifier.py lines 322-344)

The dialog's skip action loads the persisted list (defaulting to [] when
the file is missing or unreadable) and appends the release's version only
when it is not already a member; `skipped` is the loaded list. -/

def skip_version_update (skipped : List String) (v : String) :
    List String :=
  if v ∈ skipped then skipped else skipped ++ [v]

/-! ## Concrete builders for examples and counterexamples -/

/-- A stable (neither prerelease nor draft) release carrying only a
version, as in the spec's `stable(v)` notation. -/
def mkStable (v : String) : ReleaseInfo :=
  ⟨v, "v" ++ v, "", "", "", "", false, false⟩

/-- A prerelease carrying only a version, the spec's `prerelease(v)`. -/
def mkPre (v : String) : ReleaseInfo :=
  ⟨v, "v" ++ v, "", "", "", "", true, false⟩

/-- Settings with a configured repository and the source defaults
(prereleases and drafts not notified). -/
def exampleSettings : NotificationSettings :=
  { repository_owner := "owner", repository_name := "repo" }

/-! ## Helper lemmas -/

theorem listCompare_swap (xs ys : List Int) :
    listCompare ys xs = (listCompare xs ys).swap := by
  induction xs generalizing ys with
  | nil => cases ys <;> rfl
  | cons a as ih =>
    cases ys with
    | nil => rfl
    | cons b bs =>
      simp only [listCompare]
      rcases lt_trichotomy a b with h | h | h
      · simp [h, asymm h, Ordering.swap]
      · subst h
        simp [lt_irrefl, ih]
      · simp [h, asymm h, Ordering.swap]

theorem listCompare_append_lt (xs ts : List Int) (h : ts ≠ []) :
    listCompare xs (xs ++ ts) = .lt := by
  induction xs with
  | nil =>
    cases ts with
    | nil => exact absurd rfl h
    | cons t ts => rfl
  | cons a as ih => simpa [listCompare, lt_irrefl] using ih

theorem charListLt_asymm (xs ys : List Char)
    (h : charListLt xs ys = true) : charListLt ys xs = false := by
  induction xs generalizing ys with
  | nil =>
    cases ys with
    | nil => simp [charListLt] at h
    | cons b bs => rfl
  | cons a as ih =>
    cases ys with
    | nil => simp [charListLt] at h
    | cons b bs =>
      simp only [charListLt] at h ⊢
      rcases Nat.lt_trichotomy a.toNat b.toNat with hab | hab | hab
      · simp [hab, Nat.lt_asymm hab]
      · simp only [hab, lt_irrefl, if_false, ite_false] at h ⊢
        exact ih bs h
      · simp [hab, Nat.lt_asymm hab] at h

theorem stringCompare_antisymm (a b : String) :
    stringCompare a b = 1 ↔ stringCompare b a = -1 := by
  unfold stringCompare
  cases hab : charListLt a.toList b.toList with
  | true =>
    rw [charListLt_asymm _ _ hab]
    simp
  | false =>
    cases hba : charListLt b.toList a.toList with
    | true => simp
    | false => simp

theorem stringCompare_cases (a b : String) :
    stringCompare a b = -1 ∨ stringCompare a b = 0 ∨
      stringCompare a b = 1 := by
  unfold stringCompare
  split
  · exact Or.inl rfl
  · split
    · exact Or.inr (Or.inr rfl)
    · exact Or.inr (Or.inl rfl)

theorem scanReleases_eq_find (s : NotificationSettings) (cur : String)
    (rs : List ReleaseInfo) :
    scanReleases s cur rs =
      match rs.find? (fun r => passesFilter s r &&
          decide (_compare_versions cur r.version < 0)) with
      | some r => CheckOutcome.updateAvailable r
      | none => CheckOutcome.noUpdate := by
  induction rs with
  | nil => rfl
  | cons r rest ih =>
    cases hp : r.is_prerelease && !s.notify_on_prerelease with
    | true => simp [scanReleases, List.find?, passesFilter, hp, ih]
    | false =>
      cases hd : r.is_draft && !s.notify_on_draft with
      | true => simp [scanReleases, List.find?, passesFilter, hp, hd, ih]
      | false =>
        by_cases hc : _compare_versions cur r.version < 0
        · simp [scanReleases, List.find?, passesFilter, hp, hd, hc]
        · simp [scanReleases, List.find?, passesFilter, hp, hd, hc, ih]

theorem timestampUpdated_scan (s : NotificationSettings) (cur : String)
    (rs : List ReleaseInfo) :
    timestampUpdated (scanReleases s cur rs) = true := by
  induction rs with
  | nil => rfl
  | cons r rest ih =>
    simp only [scanReleases]
    split
    · exact ih
    · split
      · exact ih
      · split
        · rfl
        · exact ih

/-! ## Claim theorems -/

/-- C1 counterexample: `_compare_versions "1.2" "1.2.0"` is LESS (-1),
not EQUAL (0): Python tuple comparison makes a proper prefix strictly
smaller, the missing trailing segment is not treated as 0. -/
theorem compare_prefix_version_not_equal :
    _compare_versions "1.2" "1.2.0" = -1 ∧
      _compare_versions "1.2" "1.2.0" ≠ 0 := by
  decide

/-- C1 (amended): for every pair of version strings whose segments all
parse as integers and where the first string's segments are a proper
prefix of the second string's, compare returns LESS, not EQUAL; in
particular compare("1.2", "1.2.0") is LESS. -/
theorem compare_shorter_version_is_less (a b : String) (ta ts : List Int)
    (ha : version_tuple a = some ta)
    (hb : version_tuple b = some (ta ++ ts)) (hts : ts ≠ []) :
    _compare_versions a b = -1 := by
  unfold _compare_versions
  rw [ha, hb]
  simp [listCompare_append_lt ta ts hts]

/-- C1 witness: the amended theorem applied at "1.2" and "1.2.0". -/
theorem compare_shorter_version_is_less_witness :
    version_tuple "1.2" = some [1, 2] ∧
      version_tuple "1.2.0" = some ([1, 2] ++ [0]) ∧
      _compare_versions "1.2" "1.2.0" = -1 :=
  ⟨by decide, by decide,
    compare_shorter_version_is_less "1.2" "1.2.0" [1, 2] [0] (by decide)
      (by decide) (by decide)⟩

/-- C2 counterexample: with current version "1.5.0" over
[stable "1.0.0", stable "3.0.0"], the first eligible (unfiltered) release
is stable "1.0.0" and compare(current, "1.0.0") is not LESS, yet the
evaluation does not return NoUpdate: the loop keeps scanning and returns
the later release stable "3.0.0". -/
theorem first_eligible_not_newer_still_updates :
    passesFilter exampleSettings (mkStable "1.0.0") = true ∧
      _compare_versions "1.5.0" "1.0.0" ≠ -1 ∧
      check_for_updates exampleSettings "1.5.0" true
          (some [mkStable "1.0.0", mkStable "3.0.0"]) =
        CheckOutcome.updateAvailable (mkStable "3.0.0") := by
  decide

/-- C2 (amended): the evaluation returns NoUpdate exactly when no release
in the list is both eligible and strictly newer than the current version;
an eligible release whose comparison is not LESS does not stop the scan,
so later releases can still be returned. -/
theorem noUpdate_iff_no_eligible_newer (s : NotificationSettings)
    (cur : String) (rs : List ReleaseInfo)
    (how : s.repository_owner ≠ "") (hname : s.repository_name ≠ "")
    (hrs : rs ≠ []) :
    check_for_updates s cur true (some rs) = CheckOutcome.noUpdate ↔
      ∀ r ∈ rs, ¬(passesFilter s r = true ∧
        _compare_versions cur r.version < 0) := by
  cases rs with
  | nil => exact absurd rfl hrs
  | cons r rest =>
    unfold check_for_updates
    rw [if_neg (by simp [how, hname])]
    simp only [Bool.not_true, Bool.false_eq_true, if_false]
    rw [scanReleases_eq_find]
    cases hf : List.find? (fun r => passesFilter s r &&
        decide (_compare_versions cur r.version < 0)) (r :: rest) with
    | some x =>
      simp only [hf]
      constructor
      · intro h
        exact absurd h (by simp)
      · intro h
        have hx := List.find?_some hf
        have hmem := List.mem_of_find?_eq_some hf
        rw [Bool.and_eq_true, decide_eq_true_eq] at hx
        exact absurd ⟨hx.1, hx.2⟩ (h x hmem)
    | none =>
      simp only [hf]
      rw [List.find?_eq_none] at hf
      constructor
      · intro _ x hmem hx
        exact hf x hmem (by simp [hx.1, hx.2])
      · intro _
        trivial

/-- C2 witness: the amended iff applied at the spec's equal-versions
example, current "1.1.0" over [stable "1.1.0"], giving NoUpdate. -/
theorem noUpdate_iff_no_eligible_newer_witness :
    check_for_updates exampleSettings "1.1.0" true
        (some [mkStable "1.1.0"]) = CheckOutcome.noUpdate :=
  (noUpdate_iff_no_eligible_newer exampleSettings "1.1.0"
      [mkStable "1.1.0"] (by decide) (by decide) (by decide)).mpr
    (by decide)

/-- C3: whenever the check finds a release and that release's version
string is in the persisted skip list, the pipeline's decision is no
notification, even though the found release is eligible and strictly
newer than the current version. -/
theorem skipped_version_suppresses_notification
    (s : NotificationSettings) (cur : String) (shouldCheck : Bool)
    (fetched : Option (List ReleaseInfo)) (skipped : List String)
    (r : ReleaseInfo)
    (hfound : check_for_updates s cur shouldCheck fetched =
      CheckOutcome.updateAvailable r)
    (hskip : r.version ∈ skipped) :
    evaluateAndNotify s cur shouldCheck fetched skipped =
      Decision.noNotification := by
  unfold evaluateAndNotify _handle_new_version
  rw [hfound]
  exact if_pos hskip

/-- C3 witness: the spec's example, current "1.0.0" over
[stable "1.1.0"] with skip set {"1.1.0"}, gives no notification. -/
theorem skipped_version_suppresses_notification_witness :
    check_for_updates exampleSettings "1.0.0" true
        (some [mkStable "1.1.0"]) =
      CheckOutcome.updateAvailable (mkStable "1.1.0") ∧
      (mkStable "1.1.0").version ∈ ["1.1.0"] ∧
      evaluateAndNotify exampleSettings "1.0.0" true
        (some [mkStable "1.1.0"]) ["1.1.0"] = Decision.noNotification :=
  ⟨by decide, by decide,
    skipped_version_suppresses_notification exampleSettings "1.0.0" true
      (some [mkStable "1.1.0"]) ["1.1.0"] (mkStable "1.1.0") (by decide)
      (by decide)⟩

/-- C4: an empty repository owner or name makes check_for_updates take
the configuration-error exit whatever the cadence state, the fetched data
and the current version (so the failure precedes any filtering or
comparison), and that exit is distinct from the no-update exit and from
the fetch-failure exit. -/
theorem missing_repo_config_is_distinct_error
    (s : NotificationSettings) (cur : String) (shouldCheck : Bool)
    (fetched : Option (List ReleaseInfo))
    (h : s.repository_owner = "" ∨ s.repository_name = "") :
    check_for_updates s cur shouldCheck fetched =
        CheckOutcome.configError ∧
      CheckOutcome.configError ≠ CheckOutcome.noUpdate ∧
      CheckOutcome.configError ≠ CheckOutcome.noData := by
  refine ⟨?_, by decide, by decide⟩
  unfold check_for_updates
  rw [if_pos h]

/-- C4 witness: default settings have an empty owner, and the check with
a nonempty release list still reports the configuration error. -/
theorem missing_repo_config_is_distinct_error_witness :
    ({} : NotificationSettings).repository_owner = "" ∧
      check_for_updates {} "1.0.0" true (some [mkStable "2.0.0"]) =
        CheckOutcome.configError :=
  ⟨rfl, (missing_repo_config_is_distinct_error {} "1.0.0" true
      (some [mkStable "2.0.0"]) (Or.inl rfl)).1⟩

/-- C5 counterexample: a successful fetch of an empty release list (a
repository with no releases, not a transport failure) completes with the
caller-visible no-update outcome, yet the timestamp is not written: the
falsy-data check at line 195 takes the same early return as a failed
request, falsifying "written after every completed check". -/
theorem empty_release_list_completes_without_timestamp :
    check_for_updates exampleSettings "1.0.0" true
        (some ([] : List ReleaseInfo)) = CheckOutcome.noData ∧
      timestampUpdated (check_for_updates exampleSettings "1.0.0" true
        (some ([] : List ReleaseInfo))) = false := by
  decide

/-- C5 (amended): the last-check timestamp is written after every check
that reaches the release scan, whether the scan decided noUpdate or
updateAvailable, and it is not written when the release fetch failed nor
when the fetch succeeded with an empty release list, which the code
treats like a failed fetch. -/
theorem timestamp_written_iff_check_completed
    (s : NotificationSettings) (cur : String) (shouldCheck : Bool)
    (rs : List ReleaseInfo) :
    (s.repository_owner ≠ "" → s.repository_name ≠ "" → rs ≠ [] →
      timestampUpdated (check_for_updates s cur true (some rs)) = true) ∧
      timestampUpdated (check_for_updates s cur shouldCheck none) =
        false ∧
      timestampUpdated (check_for_updates s cur shouldCheck
        (some ([] : List ReleaseInfo))) = false := by
  refine ⟨?_, ?_, ?_⟩
  · intro how hname hrs
    cases rs with
    | nil => exact absurd rfl hrs
    | cons r rest =>
      unfold check_for_updates
      rw [if_neg (by simp [how, hname])]
      simpa using timestampUpdated_scan s cur (r :: rest)
  · unfold check_for_updates
    split
    · rfl
    · split
      · rfl
      · rfl
  · unfold check_for_updates
    split
    · rfl
    · split
      · rfl
      · rfl

/-- C5 witness: an equal-versions check (decision noUpdate) advances the
timestamp; a failed fetch does not. -/
theorem timestamp_written_iff_check_completed_witness :
    timestampUpdated (check_for_updates exampleSettings "1.1.0" true
        (some [mkStable "1.1.0"])) = true ∧
      timestampUpdated (check_for_updates exampleSettings "1.1.0" true
        none) = false :=
  ⟨(timestamp_written_iff_check_completed exampleSettings "1.1.0" true
      [mkStable "1.1.0"]).1 (by decide) (by decide) (by decide),
    (timestamp_written_iff_check_completed exampleSettings "1.1.0" true
      [mkStable "1.1.0"]).2.1⟩

/-- C6 counterexample: the candidate is not the first release passing the
prerelease/draft filter, and passing the filter is not the only way to
avoid being skipped: over [stable "1.0.0", stable "3.0.0"] with current
"2.0.0", stable "1.0.0" passes the filter and comes first, yet the scan
skips it (it is not newer) and returns stable "3.0.0". -/
theorem scan_skips_unfiltered_release :
    passesFilter exampleSettings (mkStable "1.0.0") = true ∧
      scanReleases exampleSettings "2.0.0"
          [mkStable "1.0.0", mkStable "3.0.0"] =
        CheckOutcome.updateAvailable (mkStable "3.0.0") := by
  decide

/-- C6 (amended): the scan skips a release exactly when it fails the
prerelease/draft filter (isPrerelease and not notifyOnPrerelease, or
isDraft and not notifyOnDraft) or its version does not compare strictly
newer than the current version; it returns the first release skipped by
neither criterion, and produces noUpdate when the list is empty or every
release is skipped. -/
theorem scan_returns_first_eligible_newer (s : NotificationSettings)
    (cur : String) (rs : List ReleaseInfo) :
    scanReleases s cur rs =
      match rs.find? (fun r => passesFilter s r &&
          decide (_compare_versions cur r.version < 0)) with
      | some r => CheckOutcome.updateAvailable r
      | none => CheckOutcome.noUpdate :=
  scanReleases_eq_find s cur rs

/-- C7: compare is antisymmetric over all pairs of strings, including
pairs where one side parses numerically and the other does not: the
result is GREATER one way exactly when it is LESS the other way. -/
theorem compare_versions_antisymm (a b : String) :
    _compare_versions a b = 1 ↔ _compare_versions b a = -1 := by
  unfold _compare_versions
  cases ha : version_tuple a with
  | some ta =>
    cases hb : version_tuple b with
    | some tb =>
      have hs := listCompare_swap ta tb
      cases h : listCompare ta tb <;> rw [h] at hs <;>
        simp [h, hs, Ordering.swap]
    | none => exact stringCompare_antisymm a b
  | none =>
    cases hb : version_tuple b with
    | some tb => exact stringCompare_antisymm a b
    | none => exact stringCompare_antisymm a b

/-- C7 witness: the antisymmetry applied at "10.0" and "2.0", with the
LESS side evaluated concretely. -/
theorem compare_versions_antisymm_witness :
    _compare_versions "10.0" "2.0" = 1 :=
  (compare_versions_antisymm "10.0" "2.0").mpr (by decide)

/-- C8: compare is total: every pair of strings, including non-numeric
segments and empty strings, yields one of -1 (LESS), 0 (EQUAL) or
1 (GREATER); and whenever integer parsing fails for either argument the
result is exactly the ordinal string comparison of the raw strings. -/
theorem compare_versions_total (a b : String) :
    (_compare_versions a b = -1 ∨ _compare_versions a b = 0 ∨
        _compare_versions a b = 1) ∧
      ((version_tuple a = none ∨ version_tuple b = none) →
        _compare_versions a b = stringCompare a b) := by
  unfold _compare_versions
  cases ha : version_tuple a with
  | some ta =>
    cases hb : version_tuple b with
    | some tb =>
      constructor
      · cases h : listCompare ta tb <;> simp [h]
      · rintro (h | h) <;> cases h
    | none => exact ⟨stringCompare_cases a b, fun _ => rfl⟩
  | none =>
    cases hb : version_tuple b with
    | some tb => exact ⟨stringCompare_cases a b, fun _ => rfl⟩
    | none => exact ⟨stringCompare_cases a b, fun _ => rfl⟩

/-- C8 witness: the spec's example "abc" versus "1.0" falls back to
string comparison. -/
theorem compare_versions_total_witness :
    version_tuple "abc" = none ∧
      _compare_versions "abc" "1.0" = stringCompare "abc" "1.0" :=
  ⟨by decide, (compare_versions_total "abc" "1.0").2 (Or.inl (by decide))⟩

/-- C9 counterexample: a record whose 'last_check' field is absent is not
an unconditional go-ahead: the code substitutes the default '2000-01-01',
so with a configured interval of 300000 hours the check is blocked even
at the current time 2025-10-12 (Unix 1760227200). -/
theorem absent_field_can_block_check :
    _should_check_for_updates 1760227200 300000
      (LastCheckFile.record TimestampField.absent) = false := by
  decide

/-- C9 (amended): an unreadable or unparsable cadence file and a
malformed timestamp value always let the check proceed; an absent
timestamp field instead falls back to the default 2000-01-01, letting the
check proceed exactly when the current time is more than the configured
interval past that default. -/
theorem corrupt_cadence_file_allows_check (now intervalHours : Int) :
    _should_check_for_updates now intervalHours
        LastCheckFile.unreadable = true ∧
      _should_check_for_updates now intervalHours
        (LastCheckFile.record TimestampField.malformed) = true ∧
      (now - t2000 > intervalHours * 3600 →
        _should_check_for_updates now intervalHours
          (LastCheckFile.record TimestampField.absent) = true) :=
  ⟨rfl, rfl, fun h => decide_eq_true h⟩

/-- C9 witness: at the current time 2025-10-12 with the default 24-hour
interval, an absent field lets the check proceed. -/
theorem corrupt_cadence_file_allows_check_witness :
    (1760227200 - t2000 > 24 * 3600) ∧
      _should_check_for_updates 1760227200 24
        (LastCheckFile.record TimestampField.absent) = true :=
  ⟨by decide,
    (corrupt_cadence_file_allows_check 1760227200 24).2.2 (by decide)⟩

/-- C10: skipping a version already in the persisted list leaves the list
unchanged (the insertion is idempotent), skipping an absent version
appends exactly that one entry, and the update preserves the
no-duplicates invariant. -/
theorem skip_version_preserves_invariants (skipped : List String)
    (v : String) :
    (v ∈ skipped → skip_version_update skipped v = skipped) ∧
      (v ∉ skipped → skip_version_update skipped v = skipped ++ [v]) ∧
      (skipped.Nodup → (skip_version_update skipped v).Nodup) := by
  refine ⟨fun h => if_pos h, fun h => if_neg h, fun hnd => ?_⟩
  unfold skip_version_update
  split
  · exact hnd
  · rename_i h
    exact List.Nodup.append hnd (List.nodup_singleton v)
      fun x hx hxv => h ((List.mem_singleton.mp hxv) ▸ hx)

/-- C10 witness: inserting a present version is a no-op; inserting a new
one appends exactly it and keeps the list duplicate-free. -/
theorem skip_version_preserves_invariants_witness :
    skip_version_update ["1.0.0"] "1.0.0" = ["1.0.0"] ∧
      skip_version_update ["1.0.0"] "1.1.0" = ["1.0.0"] ++ ["1.1.0"] ∧
      (skip_version_update ["1.0.0"] "1.1.0").Nodup :=
  ⟨(skip_version_preserves_invariants ["1.0.0"] "1.0.0").1 (by decide),
    (skip_version_preserves_invariants ["1.0.0"] "1.1.0").2.1
      (by decide),
    (skip_version_preserves_invariants ["1.0.0"] "1.1.0").2.2
      (by decide)⟩

end VersionNotifier
